import Mathlib

/-!
Verification development for the `restful` repository fragment described in
its specification: the trace-context resolver (`package tracer`, file
`src/unnamed/part_000`) and the reflection-based handler adapter
(`src/mux_lambda_wrapper.go`).

The trace wire encodings (packages `traceb3`, `traceparent`, `traceotel`,
`tracedata`) and the response helpers (`SendResp`, `NewError`,
`GetRequestData`, the `lambda` package) are collaborators of this repository
whose sources are not part of the fragment; they are modelled from the
specification, and each such definition is marked `Modelled from the spec:`.
Everything else is translated directly from the Go source.
-/

namespace Restful

/-- A wire string (header value, trace id, span id), modelled as a list of
characters so that serialization and splitting can be reasoned about. -/
abbrev Wire := List Char

/-- An HTTP header collection (`http.Header` restricted to single-valued
headers): an association list from canonical header names to values. -/
structure Headers where
  entries : List (String × Wire)
deriving DecidableEq

/-- The empty header collection. -/
def Headers.empty : Headers := ⟨[]⟩

/-- Header lookup: first value stored under the key, if any. -/
def Headers.get (h : Headers) (k : String) : Option Wire :=
  (h.entries.find? (fun p => p.1 == k)).map (fun p => p.2)

/-- Header update (`Header.Set`): replaces any existing value under the key. -/
def Headers.set (h : Headers) (k : String) (v : Wire) : Headers :=
  ⟨(k, v) :: h.entries.filter (fun p => p.1 != k)⟩

/-- Modelled from the spec: `tracedata.TraceData`, the polymorphic trace
context with three concrete encodings (spec section 3: W3C traceparent, B3,
or an OpenTelemetry SDK span context), each carrying trace id, span id,
format-specific fields, and the received-from-caller flag. -/
inductive TraceData where
  | b3data (traceID spanID parentSpanID : Wire) (sampled : Bool) (received : Bool)
  | parentData (version traceID spanID flags : Wire) (received : Bool)
  | otelData (traceID spanID : Wire) (received : Bool)
deriving DecidableEq

/-- Modelled from the spec: `traceID(context)`, the textual trace identifier. -/
def TraceData.TraceID : TraceData → Wire
  | .b3data tid _ _ _ _ => tid
  | .parentData _ tid _ _ _ => tid
  | .otelData tid _ _ => tid

/-- Modelled from the spec: `spanID(context)`, the textual span identifier. -/
def TraceData.SpanID : TraceData → Wire
  | .b3data _ sid _ _ _ => sid
  | .parentData _ _ sid _ _ => sid
  | .otelData _ sid _ => sid

/-- Modelled from the spec: `isReceived(context)`; true iff parsed from an
incoming request rather than fabricated. -/
def TraceData.IsReceived : TraceData → Bool
  | .b3data _ _ _ _ rcv => rcv
  | .parentData _ _ _ _ rcv => rcv
  | .otelData _ _ rcv => rcv

/-- Modelled from the spec: `setHeader(context, headers)` writes the
context's wire encoding into the header collection, using the encoding the
context was created with (spec section 6): B3 as the multi-header set
(trace id, span id, sampled flag, parent span id); W3C as a single
`Traceparent` header `version-traceid-spanid-flags`; the SDK-native
encoding via the composite propagator configured in `SetOTel`
(W3C `TraceContext`, B3 single header, B3 multi-header). -/
def TraceData.SetHeader (t : TraceData) (h : Headers) : Headers :=
  match t with
  | .b3data tid sid psid sampled _ =>
    ((((h.set ("X-B3-Traceid") tid).set ("X-B3-Spanid") sid).set
        ("X-B3-Parentspanid") psid).set
        ("X-B3-Sampled") (if sampled then ['1'] else ['0']))
  | .parentData ver tid sid flags _ =>
    h.set ("Traceparent") (List.intercalate ['-'] [ver, tid, sid, flags])
  | .otelData tid sid _ =>
    (((((h.set ("Traceparent")
          (List.intercalate ['-'] [['0', '0'], tid, sid, ['0', '1']])).set
        ("B3") (List.intercalate ['-'] [tid, sid, ['1']])).set
        ("X-B3-Traceid") tid).set ("X-B3-Spanid") sid).set
        ("X-B3-Sampled") ['1'])

/-- Modelled from the spec: `traceb3.NewFromRequest`, parsing the B3
encoding from request headers — either the single combined `B3` header
`traceid-spanid-sampled[-parentspanid]` or the multi-header set
(spec section 6). Absence or malformedness yields absence, never an error
(spec section 4.1, failure semantics). A parsed context is marked received. -/
def traceb3FromHeaders (h : Headers) : Option TraceData :=
  match h.get ("B3") with
  | some v =>
    match v.splitOn '-' with
    | [tid, sid, sampled, psid] => some (.b3data tid sid psid (sampled == ['1']) true)
    | [tid, sid, sampled] => some (.b3data tid sid [] (sampled == ['1']) true)
    | _ => none
  | none =>
    match h.get ("X-B3-Traceid"), h.get ("X-B3-Spanid") with
    | some tid, some sid =>
      some (.b3data tid sid ((h.get ("X-B3-Parentspanid")).getD [])
        ((h.get ("X-B3-Sampled")).getD [] == ['1']) true)
    | _, _ => none

/-- Modelled from the spec: `traceparent.NewFromRequest`, parsing the W3C
single-header encoding `version-traceid-spanid-flags` (spec section 6).
Absence or malformedness yields absence, never an error. -/
def traceparentFromHeaders (h : Headers) : Option TraceData :=
  match h.get ("Traceparent") with
  | some v =>
    match v.splitOn '-' with
    | [ver, tid, sid, flags] => some (.parentData ver tid sid flags true)
    | _ => none
  | none => none

/-- Modelled from the spec: `traceotel.NewFromRequest`, the SDK's own
context extraction via the composite propagator (W3C + B3, spec section
4.1); in the composite the B3 extractors run after `TraceContext`, so a
present B3 encoding wins over `traceparent`. -/
def traceotelFromHeaders (h : Headers) : Option TraceData :=
  match traceb3FromHeaders h with
  | some d => some (.otelData d.TraceID d.SpanID true)
  | none =>
    match traceparentFromHeaders h with
    | some d => some (.otelData d.TraceID d.SpanID true)
    | none => none

/-- A parent execution context (`context.Context`) as far as trace
resolution is concerned: it may carry a trace context. -/
abbrev ParentCtx := Option TraceData

/-- Modelled from the spec: `traceotel.NewFromRequestWithContext` — like the
plain extraction but derived from the parent context when the request
itself carries no trace headers. Only the OTel-enabled branch of
`NewFromRequestWithContext` consults it. -/
def traceotelFromHeadersWithContext (parentCtx : ParentCtx) (h : Headers) :
    Option TraceData :=
  match traceotelFromHeaders h with
  | some d => some d
  | none => parentCtx.map (fun d => .otelData d.TraceID d.SpanID true)

/-- Fresh randomness for fabricating trace identifiers: a random trace id
and a random span id. -/
structure RandState where
  rtid : Wire
  rsid : Wire
deriving DecidableEq

/-- Modelled from the spec: `traceb3.NewRandom` fabricates a B3 context with
random trace and span ids, marked not received (spec section 4.1). -/
def traceb3NewRandom (g : RandState) : TraceData :=
  .b3data g.rtid g.rsid [] false false

/-- Modelled from the spec: `traceotel.NewRandom` fabricates an SDK-native
context with random trace and span ids, marked not received. -/
def traceotelNewRandom (g : RandState) : TraceData :=
  .otelData g.rtid g.rsid false

/-- An inbound HTTP request as far as trace handling is concerned: its
headers, and the trace context attached to it by `Span` (if any). -/
structure Request where
  headers : Headers
  trace : Option TraceData
deriving DecidableEq

/-- `Tracer` (source: `part_000`, lines 89-92): trace data plus the
received flag recorded at construction. -/
structure Tracer where
  traceData : TraceData
  received : Bool
deriving DecidableEq

/-- `NewFromRequest` (source: `part_000`, lines 95-111). The process-wide
`OtelEnabled` flag is passed explicitly. The Go nil checks on the interface
value are captured by the `Option`. -/
def NewFromRequest (otelEnabled : Bool) (r : Request) : Option Tracer :=
  let traceData : Option TraceData :=
    if otelEnabled then
      traceotelFromHeaders r.headers
    else
      match traceb3FromHeaders r.headers with
      | some d => some d
      | none => traceparentFromHeaders r.headers
  match traceData with
  | none => none
  | some d => some { traceData := d, received := true }

/-- `NewFromRequestWithContext` (source: `part_000`, lines 114-130): same as
`NewFromRequest`, except that the OTel branch derives from the parent
context. -/
def NewFromRequestWithContext (otelEnabled : Bool) (parentCtx : ParentCtx)
    (r : Request) : Option Tracer :=
  let traceData : Option TraceData :=
    if otelEnabled then
      traceotelFromHeadersWithContext parentCtx r.headers
    else
      match traceb3FromHeaders r.headers with
      | some d => some d
      | none => traceparentFromHeaders r.headers
  match traceData with
  | none => none
  | some d => some { traceData := d, received := true }

/-- `NewRandom` (source: `part_000`, lines 144-152): fabricates a tracer
with random data, encoding chosen by the global flag, marked not received. -/
def NewRandom (otelEnabled : Bool) (g : RandState) : Tracer :=
  { traceData := if otelEnabled then traceotelNewRandom g else traceb3NewRandom g,
    received := false }

/-- `NewFromRequestOrRandom` (source: `part_000`, lines 135-141): resolve
from the request, else fabricate randomly. `NewRandom` always yields a
non-nil pointer in Go, hence the unconditional `some`. -/
def NewFromRequestOrRandom (otelEnabled : Bool) (g : RandState) (r : Request) :
    Option Tracer :=
  match NewFromRequest otelEnabled r with
  | some t => some t
  | none => some (NewRandom otelEnabled g)

/-- `Tracer.SetHeader` (source: `part_000`, lines 163-165). -/
def Tracer.SetHeader (t : Tracer) (headers : Headers) : Headers :=
  t.traceData.SetHeader headers

/-- `Tracer.IsReceived` (source: `part_000`, lines 168-170): delegates to
the trace data, not to the `received` field. -/
def Tracer.IsReceived (t : Tracer) : Bool :=
  t.traceData.IsReceived

/-- `Tracer.TraceID` (source: `part_000`, lines 178-180). -/
def Tracer.TraceID (t : Tracer) : Wire :=
  t.traceData.TraceID

/-- `Tracer.SpanID` (source: `part_000`, lines 183-185). -/
def Tracer.SpanID (t : Tracer) : Wire :=
  t.traceData.SpanID

/-- Modelled from the spec: the child-span derivation inside
`tracedata.Span` — a new context descended from the original: same trace
id, a fresh random span id, the original span id as parent where the
encoding records one; the original is not changed (spec section 3,
lifecycle, and section 4.1, `span`). -/
def TraceData.child (t : TraceData) (g : RandState) : TraceData :=
  match t with
  | .b3data tid sid _ sampled rcv => .b3data tid g.rsid sid sampled rcv
  | .parentData ver tid _ flags rcv => .parentData ver tid g.rsid flags rcv
  | .otelData tid _ rcv => .otelData tid g.rsid rcv

/-- The observable outcome of one `Span` call, with the post-call state of
the two objects Go could have mutated made explicit: the tracer the method
was called on and the original request object. -/
structure SpanResult where
  tracerAfter : Tracer
  originalAfter : Request
  returned : Request
  logTraceID : Wire
  logSpanID : Wire
deriving DecidableEq

/-- `Tracer.Span` (source: `part_000`, lines 157-159), delegating to
`tracedata.Span`, modelled from the spec: derives a child span, attaches it
to a copy of the request (writing its headers there), and returns the copy
plus a log string carrying trace id and span id; neither the input trace
data nor the original request object is changed. -/
def Tracer.Span (t : Tracer) (r : Request) (g : RandState) : SpanResult :=
  let c := t.traceData.child g
  { tracerAfter := t
    originalAfter := r
    returned := { headers := c.SetHeader r.headers, trace := some c }
    logTraceID := c.TraceID
    logSpanID := c.SpanID }

/-!
## Handler adapter (`src/mux_lambda_wrapper.go`)

Go's reflection universe is modelled just deeply enough for the adapter's
control flow: interface values (`GoAny`), `reflect.Value`s that are either
plain values or pointers (`RValue`), parameter types classified by the
three properties the adapter inspects (implements `context.Context`,
pointer kind, struct kind after one dereference), and oracles for the two
external calls whose outcome depends on the request (`GetRequestData`,
`validate.Struct`).
-/

/-- Modelled from the spec: a Go error value as the response writer sees
it — an HTTP status and an optional wrapped base error message. `NewError`
builds one. -/
structure GoError where
  baseMsg : Option String
  status : Nat
deriving DecidableEq

/-- Modelled from the spec: `NewError(base, status)` attaches a status code
to an (optional) base error. -/
def NewError (baseMsg : Option String) (status : Nat) : GoError :=
  { baseMsg := baseMsg, status := status }

/-- A Go interface value (`any`): nil, a non-nil value implementing
`error`, or any other data value (abstract). -/
inductive GoAny where
  | anil
  | aerr (e : GoError)
  | adata (d : Nat)
deriving DecidableEq

/-- A `reflect.Value` as the adapter's result handling inspects it: a
non-pointer value, or a pointer (possibly nil) to an interface value. -/
inductive RValue where
  | flat (a : GoAny)
  | ptr (inner : Option GoAny)
deriving DecidableEq

/-- `res.Interface()` followed by the `.(error)` type assertion pattern:
the interface value held by a `reflect.Value`. A typed nil pointer never
satisfies the `error` assertion in this model. -/
def RValue.interfaceVal : RValue → GoAny
  | .flat a => a
  | .ptr none => .anil
  | .ptr (some a) => a

/-- Modelled from the spec: `lambda.Lambda`, the per-request record behind
`L(r.Context())` carrying the recorded status override (`l.Status`). The
Go `*lambda.Lambda` is `Option Lambda` here. -/
structure Lambda where
  status : Nat
deriving DecidableEq

/-- `lambdaHandleRes0` (source: `mux_lambda_wrapper.go`, lines 32-37). -/
def lambdaHandleRes0 (l : Option Lambda) : Option GoError :=
  match l with
  | some lam => if lam.status > 0 then some (NewError none lam.status) else none
  | none => none

/-- `lambdaHandleRes1` (source: `mux_lambda_wrapper.go`, lines 39-48). -/
def lambdaHandleRes1 (l : Option Lambda) (res : RValue) : GoAny × Option GoError :=
  match res.interfaceVal with
  | .aerr e => (.anil, some e)
  | a =>
    match l with
    | some lam =>
      if lam.status > 0 then (a, some (NewError none lam.status)) else (a, none)
    | none => (a, none)

/-- `lambdaGetStatus` (source: `mux_lambda_wrapper.go`, lines 50-58). -/
def lambdaGetStatus (l : Option Lambda) (res : RValue) : Option GoError :=
  match res.interfaceVal with
  | .aerr e => some e
  | _ =>
    match l with
    | some lam => if lam.status > 0 then some (NewError none lam.status) else none
    | none => none

/-- `lambdaHandleRes2` (source: `mux_lambda_wrapper.go`, lines 60-71):
error from the second slot (via `lambdaGetStatus`), payload from the first,
dereferenced one level when it is a pointer, nil pointer yielding nil. -/
def lambdaHandleRes2 (l : Option Lambda) (res0 res1 : RValue) :
    GoAny × Option GoError :=
  let err := lambdaGetStatus l res1
  match res0 with
  | .ptr none => (.anil, err)
  | .ptr (some a) => (a, err)
  | .flat a => (a, err)

/-- The pair handed to `SendResp` — spec section 4.2, step 5: all emission
happens through one response-writing operation given
(error-or-nil, payload-or-nil). -/
structure LambdaResponse where
  data : GoAny
  err : Option GoError
deriving DecidableEq

/-- `lambdaHandleRes` (source: `mux_lambda_wrapper.go`, lines 73-84):
dispatch on the number of return values, then one `SendResp`. -/
def lambdaHandleRes (l : Option Lambda) (res : List RValue) : LambdaResponse :=
  match res with
  | [] => { data := .anil, err := lambdaHandleRes0 l }
  | [r0] =>
    let (d, e) := lambdaHandleRes1 l r0
    { data := d, err := e }
  | r0 :: r1 :: _ =>
    let (d, e) := lambdaHandleRes2 l r0 r1
    { data := d, err := e }

/-- A function parameter type, classified by the three properties
`lambdaGetParams` inspects: whether it implements `context.Context`,
whether its kind is pointer, and whether the kind after one dereference
(the kind `reflect.ValueOf(reqDataInterface).Elem().Kind()` sees) is
struct. -/
structure ParamType where
  isCtx : Bool
  isPtr : Bool
  isStruct : Bool
deriving DecidableEq

/-- An argument value assembled by `lambdaGetParams`: the synthesized
request context, a decoded body by value, a decoded body behind a pointer
(`none` = nil pointer), or a zero `reflect.Value` for parameters the
adapter never fills. -/
inductive ArgValue where
  | ctxArg
  | bodyByValue (v : Nat)
  | bodyByPtr (inner : Option Nat)
  | zeroArg
deriving DecidableEq

/-- The request as the adapter sees it, with the outcomes of the two
external request-dependent calls as oracles. Modelled from the spec:
`GetRequestData` decodes the body into the allocation (a failure is a
client-facing decode error, spec section 7), and `validate.Struct` runs
schema validation on the decoded value. -/
structure LambdaRequest where
  decodeErr : Option GoError
  decodedValue : Nat
  validateErr : Option String
deriving DecidableEq

/-- The body argument `lambdaGetParams` stores at `reqDataIdx` after a
successful decode: for a pointer-typed parameter the `reflect.New`
allocation (a non-nil pointer to the decoded value), otherwise the decoded
value itself. -/
def mkBodyArg (t : ParamType) (v : Nat) : ArgValue :=
  if t.isPtr then .bodyByPtr (some v) else .bodyByValue v

/-- The body-parameter block of `lambdaGetParams` (source:
`mux_lambda_wrapper.go`, lines 103-126): allocate, decode
(`GetRequestData`, failure returned as-is), then — if the validator is
enabled and the dereferenced kind is struct — validate, a failure becoming
`NewError(err, 422)`. -/
def decodeBody (validatorEnabled : Bool) (r : LambdaRequest) (t : ParamType) :
    Except GoError ArgValue :=
  match r.decodeErr with
  | some e => .error e
  | none =>
    if validatorEnabled && t.isStruct then
      match r.validateErr with
      | some msg => .error (NewError (some msg) 422)
      | none => .ok (mkBodyArg t r.decodedValue)
    else
      .ok (mkBodyArg t r.decodedValue)

/-- `lambdaGetParams` (source: `mux_lambda_wrapper.go`, lines 88-129): if
the first parameter implements `context.Context` it receives the
synthesized request context and the body parameter is the next one;
parameters after the body one are left as zero values. -/
def lambdaGetParams (validatorEnabled : Bool) (r : LambdaRequest)
    (ts : List ParamType) : Except GoError (List ArgValue) :=
  match ts with
  | [] => .ok []
  | t0 :: rest =>
    if t0.isCtx then
      match rest with
      | [] => .ok [.ctxArg]
      | t1 :: rest2 =>
        (decodeBody validatorEnabled r t1).map
          (fun arg => .ctxArg :: arg :: rest2.map (fun _ => ArgValue.zeroArg))
    else
      (decodeBody validatorEnabled r t0).map
        (fun arg => arg :: rest.map (fun _ => ArgValue.zeroArg))

/-- The index `reqDataIdx` at which `lambdaGetParams` stores the body
argument, when a body parameter exists, together with its type. -/
def bodyParam (ts : List ParamType) : Option (Nat × ParamType) :=
  match ts with
  | [] => none
  | t0 :: rest =>
    if t0.isCtx then (rest.head?).map (fun t1 => (1, t1))
    else some (0, t0)

/-- One invocation of the closure `LambdaWrap` builds (source:
`mux_lambda_wrapper.go`, lines 147-155): assemble parameters; on error,
one `SendResp(w, r, err, nil)` and the function is not called; otherwise
call the function and hand its results to `lambdaHandleRes`. `invoked`
records whether the user function ran; `l` is the status override recorded
in the request context by the time the response is written. -/
structure InvokeResult where
  invoked : Bool
  response : LambdaResponse
deriving DecidableEq

/-- The adapted handler's behaviour on one request (the body of the closure
returned by `LambdaWrap`). -/
def lambdaInnerHandler (validatorEnabled : Bool) (ts : List ParamType)
    (f : List ArgValue → List RValue) (l : Option Lambda) (r : LambdaRequest) :
    InvokeResult :=
  match lambdaGetParams validatorEnabled r ts with
  | .error e => { invoked := false, response := { data := .anil, err := some e } }
  | .ok params =>
    { invoked := true, response := lambdaHandleRes l (f params) }

/-- A Go value passed to `LambdaWrap`, classified exactly as the adapter
does: the plain `func(http.ResponseWriter, *http.Request)` type, the named
`http.HandlerFunc` type, some other value of function kind (with its
parameter types and behaviour), or a value that is not of function kind.
Native handlers are abstracted by an identifier. -/
inductive LambdaInput where
  | plainHandlerFunc (h : Nat)
  | namedHandlerFunc (h : Nat)
  | funcValue (ts : List ParamType) (f : List ArgValue → List RValue)
  | nonFunc (v : Nat)

/-- The outcome of `LambdaWrap`: one of the two pass-through shapes
returned unchanged, an adapting closure, or the `panic` for a non-function
input. -/
inductive WrapResult where
  | passthrough (h : Nat)
  | wrapped (ts : List ParamType) (f : List ArgValue → List RValue)
  | fatal (msg : String)

/-- `LambdaWrap` (source: `mux_lambda_wrapper.go`, lines 134-156): the two
handler-shaped type assertions first, then the function-kind check — a
non-function input panics with "function expected" — then the adapting
closure. -/
def LambdaWrap : LambdaInput → WrapResult
  | .plainHandlerFunc h => .passthrough h
  | .namedHandlerFunc h => .passthrough h
  | .funcValue ts f => .wrapped ts f
  | .nonFunc _ => .fatal ("function expected")

/-- Whether an interface value is a (non-nil) error value — the Go
`_, ok := v.(error)` test. -/
def GoAny.isErr : GoAny → Bool
  | .aerr _ => true
  | _ => false

/-!
## Theorems
-/

/-- C1: For every trace context, in each of the three encodings (B3, W3C
traceparent, SDK-native), writing its wire encoding into a request's
headers via `SetHeader` and resolving that request via `NewFromRequest`
(under the matching global flag) yields a context whose trace id and span
id equal those of the original. The identifiers are assumed free of the
separator character, as hex trace identifiers are. -/
theorem c1_setheader_resolve_roundtrip
    (tid sid psid ver flags : Wire) (sampled rcv : Bool)
    (hver : '-' ∉ ver) (htid : '-' ∉ tid) (hsid : '-' ∉ sid)
    (hflags : '-' ∉ flags) :
    ((NewFromRequest false
        (Request.mk ((TraceData.b3data tid sid psid sampled rcv).SetHeader
          Headers.empty) none)).map
      (fun t => (t.TraceID, t.SpanID)) = some (tid, sid)) ∧
    ((NewFromRequest false
        (Request.mk ((TraceData.parentData ver tid sid flags rcv).SetHeader
          Headers.empty) none)).map
      (fun t => (t.TraceID, t.SpanID)) = some (tid, sid)) ∧
    ((NewFromRequest true
        (Request.mk ((TraceData.otelData tid sid rcv).SetHeader
          Headers.empty) none)).map
      (fun t => (t.TraceID, t.SpanID)) = some (tid, sid)) := by
  refine ⟨rfl, ?_, ?_⟩
  · have hx : ∀ l ∈ [ver, tid, sid, flags], '-' ∉ l := by
      intro l hl
      simp only [List.mem_cons, List.not_mem_nil, or_false] at hl
      rcases hl with rfl | rfl | rfl | rfl <;> assumption
    have hs : (List.intercalate ['-'] [ver, tid, sid, flags]).splitOn '-'
        = [ver, tid, sid, flags] :=
      List.splitOn_intercalate _ '-' hx (by simp)
    have hb3 : traceb3FromHeaders
        ((TraceData.parentData ver tid sid flags rcv).SetHeader Headers.empty)
        = none := rfl
    have hget : ((TraceData.parentData ver tid sid flags rcv).SetHeader
          Headers.empty).get ("Traceparent")
        = some (List.intercalate ['-'] [ver, tid, sid, flags]) := rfl
    simp only [NewFromRequest, hb3, traceparentFromHeaders, hget, hs,
      Bool.false_eq_true, if_false]
    rfl
  · have hx : ∀ l ∈ [tid, sid, [Char.ofNat 49]], '-' ∉ l := by
      intro l hl
      simp only [List.mem_cons, List.not_mem_nil, or_false] at hl
      rcases hl with rfl | rfl | rfl
      · assumption
      · assumption
      · decide
    have hs : (List.intercalate ['-'] [tid, sid, ['1']]).splitOn '-'
        = [tid, sid, ['1']] :=
      List.splitOn_intercalate _ '-' hx (by simp)
    have hget : ((TraceData.otelData tid sid rcv).SetHeader
          Headers.empty).get ("B3")
        = some (List.intercalate ['-'] [tid, sid, ['1']]) := rfl
    simp only [NewFromRequest, traceotelFromHeaders, traceb3FromHeaders,
      hget, hs, if_true]
    rfl

/-- Witness for C1 at concrete hex-like identifiers. -/
theorem c1_setheader_resolve_roundtrip_witness :
    ('-' ∉ (['0', '0'] : Wire)) ∧ ('-' ∉ (['a', '1'] : Wire)) ∧
    ('-' ∉ (['b', '2'] : Wire)) ∧ ('-' ∉ (['0', '1'] : Wire)) ∧
    (((NewFromRequest false
        (Request.mk ((TraceData.b3data ['a', '1'] ['b', '2'] ['c', '3'] true
          true).SetHeader Headers.empty) none)).map
      (fun t => (t.TraceID, t.SpanID)) = some (['a', '1'], ['b', '2'])) ∧
    ((NewFromRequest false
        (Request.mk ((TraceData.parentData ['0', '0'] ['a', '1'] ['b', '2']
          ['0', '1'] true).SetHeader Headers.empty) none)).map
      (fun t => (t.TraceID, t.SpanID)) = some (['a', '1'], ['b', '2'])) ∧
    ((NewFromRequest true
        (Request.mk ((TraceData.otelData ['a', '1'] ['b', '2']
          true).SetHeader Headers.empty) none)).map
      (fun t => (t.TraceID, t.SpanID)) = some (['a', '1'], ['b', '2']))) :=
  ⟨by decide, by decide, by decide, by decide,
    c1_setheader_resolve_roundtrip ['a', '1'] ['b', '2'] ['c', '3'] ['0', '0']
      ['0', '1'] true true (by decide) (by decide) (by decide) (by decide)⟩

/-- C3: `NewFromRequestOrRandom` never returns nil; and when the request
carries no recognizable trace header (`NewFromRequest` resolves to
nothing), the returned tracer reports `IsReceived = false`. -/
theorem c3_or_random_never_nil (otelEnabled : Bool) (g : RandState)
    (r : Request) :
    (NewFromRequestOrRandom otelEnabled g r).isSome = true ∧
    (NewFromRequest otelEnabled r = none →
      (NewFromRequestOrRandom otelEnabled g r).map Tracer.IsReceived
        = some false) := by
  constructor
  · unfold NewFromRequestOrRandom
    cases NewFromRequest otelEnabled r <;> rfl
  · intro h
    unfold NewFromRequestOrRandom
    rw [h]
    cases otelEnabled <;> rfl

/-- Witness for C3 on a request without trace headers. -/
theorem c3_or_random_never_nil_witness :
    (NewFromRequestOrRandom false (RandState.mk ['a'] ['b'])
      (Request.mk Headers.empty none)).isSome = true ∧
    (NewFromRequestOrRandom false (RandState.mk ['a'] ['b'])
      (Request.mk Headers.empty none)).map Tracer.IsReceived = some false :=
  ⟨(c3_or_random_never_nil false (RandState.mk ['a'] ['b'])
      (Request.mk Headers.empty none)).1,
    (c3_or_random_never_nil false (RandState.mk ['a'] ['b'])
      (Request.mk Headers.empty none)).2 (by decide)⟩

/-- C6: with the SDK integration disabled, `NewFromRequest` adopts the B3
parse when it succeeds, falls back to the W3C traceparent parse only when
B3 is absent, and returns absent — an `Option`, never an error — when
neither is present. -/
theorem c6_b3_then_traceparent (r : Request) :
    (∀ d, traceb3FromHeaders r.headers = some d →
      NewFromRequest false r = some (Tracer.mk d true)) ∧
    (∀ d, traceb3FromHeaders r.headers = none →
      traceparentFromHeaders r.headers = some d →
      NewFromRequest false r = some (Tracer.mk d true)) ∧
    (traceb3FromHeaders r.headers = none →
      traceparentFromHeaders r.headers = none →
      NewFromRequest false r = none) := by
  refine ⟨?_, ?_, ?_⟩
  · intro d hd
    simp [NewFromRequest, hd]
  · intro d hb hp
    simp [NewFromRequest, hb, hp]
  · intro hb hp
    simp [NewFromRequest, hb, hp]

/-- Witness for C6 on three concrete requests: one carrying B3 headers, one
carrying only a traceparent header, one carrying nothing. -/
theorem c6_b3_then_traceparent_witness :
    NewFromRequest false (Request.mk ((Headers.empty.set ("X-B3-Traceid")
        ['a']).set ("X-B3-Spanid") ['b']) none)
      = some (Tracer.mk (TraceData.b3data ['a'] ['b'] [] false true) true) ∧
    NewFromRequest false (Request.mk (Headers.empty.set ("Traceparent")
        (List.intercalate ['-'] [['0', '0'], ['a'], ['b'], ['0', '1']])) none)
      = some (Tracer.mk (TraceData.parentData ['0', '0'] ['a'] ['b']
          ['0', '1'] true) true) ∧
    NewFromRequest false (Request.mk Headers.empty none) = none :=
  ⟨(c6_b3_then_traceparent (Request.mk ((Headers.empty.set ("X-B3-Traceid")
        ['a']).set ("X-B3-Spanid") ['b']) none)).1 _ (by decide),
    (c6_b3_then_traceparent (Request.mk (Headers.empty.set ("Traceparent")
        (List.intercalate ['-'] [['0', '0'], ['a'], ['b'], ['0', '1']]))
        none)).2.1 _ (by decide) (by decide),
    (c6_b3_then_traceparent (Request.mk Headers.empty none)).2.2
      (by decide) (by decide)⟩

/-- C7: `LambdaWrap` returns both native handler shapes unchanged, and
panics ("function expected") on any input that is not of function kind. -/
theorem c7_wrap_passthrough_and_fatal :
    (∀ h, LambdaWrap (.plainHandlerFunc h) = .passthrough h) ∧
    (∀ h, LambdaWrap (.namedHandlerFunc h) = .passthrough h) ∧
    (∀ v, LambdaWrap (.nonFunc v) = .fatal ("function expected")) :=
  ⟨fun _ => rfl, fun _ => rfl, fun _ => rfl⟩

/-- C8: `Span` called twice with the same tracer yields two results whose
attached context and log string carry the tracer's own trace id; the
tracer itself (hence its reported trace id and span id) and the original
request object are unchanged; the span is attached to a copy. -/
theorem c8_span_preserves_context (t : Tracer) (r : Request)
    (g1 g2 : RandState) :
    ((t.Span r g1).returned.trace.map TraceData.TraceID = some t.TraceID) ∧
    ((t.Span r g2).returned.trace.map TraceData.TraceID = some t.TraceID) ∧
    ((t.Span r g1).logTraceID = t.TraceID) ∧
    ((t.Span r g2).logTraceID = t.TraceID) ∧
    ((t.Span r g1).tracerAfter = t) ∧
    ((t.Span r g1).tracerAfter.TraceID = t.TraceID) ∧
    ((t.Span r g1).tracerAfter.SpanID = t.SpanID) ∧
    ((t.Span r g1).originalAfter = r) := by
  obtain ⟨d, rcv⟩ := t
  cases d <;>
    simp [Tracer.Span, TraceData.child, Tracer.TraceID, Tracer.SpanID,
      TraceData.TraceID, TraceData.SpanID]

/-- C9: with the SDK integration disabled, `NewFromRequestWithContext`
coincides with `NewFromRequest` for every parent context argument: the
parent context is consulted only in the OTel-enabled branch. -/
theorem c9_with_context_eq_plain (parentCtx : ParentCtx) (r : Request) :
    NewFromRequestWithContext false parentCtx r = NewFromRequest false r :=
  rfl

/-- A decode failure makes `decodeBody` return that error unchanged. -/
theorem decodeBody_decode_error (ve : Bool) (r : LambdaRequest)
    (t : ParamType) (e : GoError) (he : r.decodeErr = some e) :
    decodeBody ve r t = .error e := by
  simp [decodeBody, he]

/-- A validation failure on a struct body, with the validator enabled,
makes `decodeBody` return the 422 error. -/
theorem decodeBody_validation_error (ve : Bool) (r : LambdaRequest)
    (t : ParamType) (msg : String) (hd : r.decodeErr = none)
    (hve : ve = true) (hst : t.isStruct = true)
    (hval : r.validateErr = some msg) :
    decodeBody ve r t = .error (NewError (some msg) 422) := by
  simp [decodeBody, hd, hve, hst, hval]

/-- A successful `decodeBody` always yields the body argument built by
`mkBodyArg` from the decoded value. -/
theorem decodeBody_ok_shape (ve : Bool) (r : LambdaRequest) (t : ParamType)
    (a : ArgValue) (h : decodeBody ve r t = .ok a) :
    a = mkBodyArg t r.decodedValue := by
  unfold decodeBody at h
  split at h
  · cases h
  · split at h
    · split at h
      · cases h
      · cases h
        rfl
    · cases h
      rfl

/-- When a body parameter exists and its decode fails, `lambdaGetParams`
propagates the failure. -/
theorem getParams_error_of_decode (ve : Bool) (r : LambdaRequest)
    (ts : List ParamType) (i : Nat) (bt : ParamType) (e : GoError)
    (hb : bodyParam ts = some (i, bt))
    (hd : decodeBody ve r bt = .error e) :
    lambdaGetParams ve r ts = .error e := by
  rcases ts with _ | ⟨t0, rest⟩
  · simp [bodyParam] at hb
  · by_cases hc : t0.isCtx = true
    · rcases rest with _ | ⟨t1, rest2⟩
      · simp [bodyParam, hc] at hb
      · rw [bodyParam, if_pos hc] at hb
        simp only [List.head?_cons, Option.map_some', Option.some.injEq,
          Prod.mk.injEq] at hb
        obtain ⟨hi, hbt⟩ := hb
        subst hbt
        simp [lambdaGetParams, hc, hd, Except.map]
    · rw [bodyParam, if_neg hc] at hb
      simp only [Option.some.injEq, Prod.mk.injEq] at hb
      obtain ⟨hi, hbt⟩ := hb
      subst hbt
      simp [lambdaGetParams, hc, hd, Except.map]

/-- When `lambdaGetParams` succeeds and a body parameter exists, the
assembled argument list holds the decoded body argument at the body
parameter's index. -/
theorem getParams_ok_body (ve : Bool) (r : LambdaRequest)
    (ts : List ParamType) (i : Nat) (bt : ParamType) (params : List ArgValue)
    (hb : bodyParam ts = some (i, bt))
    (hok : lambdaGetParams ve r ts = .ok params) :
    params[i]? = some (mkBodyArg bt r.decodedValue) := by
  rcases ts with _ | ⟨t0, rest⟩
  · simp [bodyParam] at hb
  · by_cases hc : t0.isCtx = true
    · rcases rest with _ | ⟨t1, rest2⟩
      · simp [bodyParam, hc] at hb
      · rw [bodyParam, if_pos hc] at hb
        simp only [List.head?_cons, Option.map_some', Option.some.injEq,
          Prod.mk.injEq] at hb
        obtain ⟨hi, hbt⟩ := hb
        subst hbt
        cases hdb : decodeBody ve r t1 with
        | error e =>
          rw [lambdaGetParams, if_pos hc, hdb] at hok
          cases hok
        | ok a =>
          rw [lambdaGetParams, if_pos hc, hdb] at hok
          cases hok
          rw [← hi]
          rw [decodeBody_ok_shape ve r t1 a hdb]
          simp
    · rw [bodyParam, if_neg hc] at hb
      simp only [Option.some.injEq, Prod.mk.injEq] at hb
      obtain ⟨hi, hbt⟩ := hb
      subst hbt
      cases hdb : decodeBody ve r t0 with
      | error e => simp [lambdaGetParams, hc, hdb, Except.map] at hok
      | ok a =>
        simp [lambdaGetParams, hc, hdb, Except.map] at hok
        subst hok
        rw [← hi]
        rw [decodeBody_ok_shape ve r t0 a hdb]
        simp

/-- A `lambdaGetParams` failure makes the adapted handler emit one
`SendResp(w, r, err, nil)` without invoking the user function. -/
theorem innerHandler_error (ve : Bool) (ts : List ParamType)
    (f : List ArgValue → List RValue) (l : Option Lambda)
    (r : LambdaRequest) (e : GoError)
    (h : lambdaGetParams ve r ts = .error e) :
    lambdaInnerHandler ve ts f l r
      = ⟨false, ⟨.anil, some e⟩⟩ := by
  simp [lambdaInnerHandler, h]

/-- C2: for an adapted function with a body parameter, a body-decode
failure yields the decode error as the client-facing response and the
function is never invoked; a successful decode of a struct body that fails
validation, with validation enabled, yields an HTTP 422 error response and
the function is never invoked. -/
theorem c2_decode_validation_guard (validatorEnabled : Bool)
    (ts : List ParamType) (f : List ArgValue → List RValue)
    (l : Option Lambda) (r : LambdaRequest) (i : Nat) (bt : ParamType)
    (hb : bodyParam ts = some (i, bt)) :
    (∀ e, r.decodeErr = some e →
      lambdaInnerHandler validatorEnabled ts f l r
        = ⟨false, ⟨.anil, some e⟩⟩) ∧
    (∀ msg, r.decodeErr = none → validatorEnabled = true →
      bt.isStruct = true → r.validateErr = some msg →
      lambdaInnerHandler validatorEnabled ts f l r
        = ⟨false, ⟨.anil, some (NewError (some msg) 422)⟩⟩) := by
  constructor
  · intro e he
    exact innerHandler_error _ _ _ _ _ _
      (getParams_error_of_decode _ _ _ _ _ _ hb
        (decodeBody_decode_error _ _ _ _ he))
  · intro msg hd hve hst hval
    exact innerHandler_error _ _ _ _ _ _
      (getParams_error_of_decode _ _ _ _ _ _ hb
        (decodeBody_validation_error _ _ _ _ hd hve hst hval))

/-- Witness for C2: a one-parameter struct-body function, once with a
failing decode and once with a failing validation. -/
theorem c2_decode_validation_guard_witness :
    lambdaInnerHandler true [ParamType.mk false false true] (fun _ => [])
        none (LambdaRequest.mk (some (NewError none 400)) 0 none)
      = ⟨false, ⟨.anil, some (NewError none 400)⟩⟩ ∧
    lambdaInnerHandler true [ParamType.mk false false true] (fun _ => [])
        none (LambdaRequest.mk none 0 (some ("required field missing")))
      = ⟨false, ⟨.anil, some (NewError (some ("required field missing"))
          422)⟩⟩ :=
  ⟨(c2_decode_validation_guard true [ParamType.mk false false true]
      (fun _ => []) none (LambdaRequest.mk (some (NewError none 400)) 0 none)
      0 (ParamType.mk false false true) (by decide)).1 _ (by decide),
    (c2_decode_validation_guard true [ParamType.mk false false true]
      (fun _ => []) none
      (LambdaRequest.mk none 0 (some ("required field missing")))
      0 (ParamType.mk false false true) (by decide)).2 _ (by decide)
      (by decide) (by decide) (by decide)⟩

/-- C4: for a two-value return, a non-nil error slot determines the error
of the response; the recorded status override is consulted only when the
error slot holds no error; a pointer payload is dereferenced one level;
and a nil pointer payload yields an empty (nil) payload. -/
theorem c4_two_returns_semantics (l : Option Lambda) (res0 res1 : RValue) :
    (∀ e, res1.interfaceVal = .aerr e →
      (lambdaHandleRes2 l res0 res1).2 = some e) ∧
    (res1.interfaceVal.isErr = false →
      (lambdaHandleRes2 l res0 res1).2 = lambdaHandleRes0 l) ∧
    ((lambdaHandleRes2 l (.ptr none) res1).1 = .anil) ∧
    (∀ a, (lambdaHandleRes2 l (.ptr (some a)) res1).1 = a) := by
  have hsnd : (lambdaHandleRes2 l res0 res1).2 = lambdaGetStatus l res1 := by
    cases res0 with
    | flat a => rfl
    | ptr inner => cases inner <;> rfl
  refine ⟨?_, ?_, rfl, fun a => rfl⟩
  · intro e he
    rw [hsnd]
    simp [lambdaGetStatus, he]
  · intro hne
    rw [hsnd]
    unfold lambdaGetStatus lambdaHandleRes0
    cases hval : res1.interfaceVal with
    | aerr e => rw [hval] at hne; cases hne
    | anil => rfl
    | adata d => rfl

/-- Witness for C4 at a concrete error, override, and payloads. -/
theorem c4_two_returns_semantics_witness :
    ((lambdaHandleRes2 (some (Lambda.mk 201)) (.flat (.adata 5))
      (.flat (.aerr (NewError none 500)))).2 = some (NewError none 500)) ∧
    ((lambdaHandleRes2 (some (Lambda.mk 201)) (.flat (.adata 5))
      (.flat .anil)).2 = lambdaHandleRes0 (some (Lambda.mk 201))) ∧
    ((lambdaHandleRes2 (some (Lambda.mk 201)) (.ptr none)
      (.flat .anil)).1 = .anil) ∧
    ((lambdaHandleRes2 (some (Lambda.mk 201)) (.ptr (some (.adata 7)))
      (.flat .anil)).1 = .adata 7) :=
  ⟨(c4_two_returns_semantics (some (Lambda.mk 201)) (.flat (.adata 5))
      (.flat (.aerr (NewError none 500)))).1 _ (by decide),
    (c4_two_returns_semantics (some (Lambda.mk 201)) (.flat (.adata 5))
      (.flat .anil)).2.1 (by decide),
    (c4_two_returns_semantics (some (Lambda.mk 201)) (.ptr none)
      (.flat .anil)).2.2.1,
    (c4_two_returns_semantics (some (Lambda.mk 201)) (.ptr (some (.adata 7)))
      (.flat .anil)).2.2.2 _⟩

/-- C5: a zero-value return responds with the recorded status override
(when one was recorded, i.e. status > 0) and an empty body, else default
success with empty body; a one-value error-shaped return is emitted as an
error response, and a non-error return is emitted as the success payload
while still honoring the recorded override. -/
theorem c5_zero_one_returns (l : Option Lambda) (res : RValue) :
    (lambdaHandleRes l [] = ⟨.anil, lambdaHandleRes0 l⟩) ∧
    (∀ lam, lam.status > 0 →
      lambdaHandleRes0 (some lam) = some (NewError none lam.status)) ∧
    (lambdaHandleRes0 none = none) ∧
    (∀ lam, lam.status = 0 → lambdaHandleRes0 (some lam) = none) ∧
    (∀ e, res.interfaceVal = .aerr e →
      lambdaHandleRes l [res] = ⟨.anil, some e⟩) ∧
    (res.interfaceVal.isErr = false →
      lambdaHandleRes l [res] = ⟨res.interfaceVal, lambdaHandleRes0 l⟩) := by
  refine ⟨rfl, ?_, rfl, ?_, ?_, ?_⟩
  · intro lam hpos
    simp [lambdaHandleRes0, hpos]
  · intro lam hz
    simp [lambdaHandleRes0, hz]
  · intro e he
    simp [lambdaHandleRes, lambdaHandleRes1, he]
  · intro hne
    have h1 : lambdaHandleRes1 l res = (res.interfaceVal, lambdaHandleRes0 l) := by
      unfold lambdaHandleRes1 lambdaHandleRes0
      cases hval : res.interfaceVal with
      | aerr e => rw [hval] at hne; cases hne
      | anil => cases l with
        | none => rfl
        | some lam => by_cases hp : lam.status > 0 <;> simp [hp]
      | adata d => cases l with
        | none => rfl
        | some lam => by_cases hp : lam.status > 0 <;> simp [hp]
    simp [lambdaHandleRes, h1]

/-- Witness for C5 at concrete overrides and return values. -/
theorem c5_zero_one_returns_witness :
    (lambdaHandleRes (some (Lambda.mk 204)) []
      = ⟨.anil, lambdaHandleRes0 (some (Lambda.mk 204))⟩) ∧
    (lambdaHandleRes0 (some (Lambda.mk 204)) = some (NewError none 204)) ∧
    (lambdaHandleRes0 none = none) ∧
    (lambdaHandleRes0 (some (Lambda.mk 0)) = none) ∧
    (lambdaHandleRes (some (Lambda.mk 204))
        [.flat (.aerr (NewError none 500))]
      = ⟨.anil, some (NewError none 500)⟩) ∧
    (lambdaHandleRes (some (Lambda.mk 204)) [.flat (.adata 9)]
      = ⟨.adata 9, lambdaHandleRes0 (some (Lambda.mk 204))⟩) :=
  ⟨(c5_zero_one_returns (some (Lambda.mk 204)) (.flat .anil)).1,
    (c5_zero_one_returns (some (Lambda.mk 204)) (.flat .anil)).2.1
      (Lambda.mk 204) (by decide),
    (c5_zero_one_returns (some (Lambda.mk 204)) (.flat .anil)).2.2.1,
    (c5_zero_one_returns (some (Lambda.mk 204)) (.flat .anil)).2.2.2.1
      (Lambda.mk 0) (by decide),
    (c5_zero_one_returns (some (Lambda.mk 204))
      (.flat (.aerr (NewError none 500)))).2.2.2.2.1 _ (by decide),
    (c5_zero_one_returns (some (Lambda.mk 204))
      (.flat (.adata 9))).2.2.2.2.2 (by decide)⟩

/-- C10: whenever the adapted function's body parameter is pointer-typed
and parameter assembly succeeds, the argument stored at the body
parameter's index is a non-nil pointer (to the freshly allocated, decoded
value), so the function never observes a nil body pointer. -/
theorem c10_ptr_body_never_nil (validatorEnabled : Bool)
    (ts : List ParamType) (r : LambdaRequest) (i : Nat) (bt : ParamType)
    (params : List ArgValue)
    (hb : bodyParam ts = some (i, bt)) (hp : bt.isPtr = true)
    (hok : lambdaGetParams validatorEnabled r ts = .ok params) :
    params[i]? = some (.bodyByPtr (some r.decodedValue)) := by
  have h := getParams_ok_body validatorEnabled r ts i bt params hb hok
  rw [h, mkBodyArg, if_pos hp]

/-- Witness for C10: a context-plus-pointer-body function shape. -/
theorem c10_ptr_body_never_nil_witness :
    (lambdaGetParams true (LambdaRequest.mk none 7 none)
        [ParamType.mk true false false, ParamType.mk false true true]
      = .ok [.ctxArg, .bodyByPtr (some 7)]) ∧
    ([ArgValue.ctxArg, ArgValue.bodyByPtr (some 7)][1]?
      = some (ArgValue.bodyByPtr (some 7))) :=
  ⟨rfl,
    c10_ptr_body_never_nil true
      [ParamType.mk true false false, ParamType.mk false true true]
      (LambdaRequest.mk none 7 none) 1 (ParamType.mk false true true)
      [.ctxArg, .bodyByPtr (some 7)] (by decide) (by decide) rfl⟩

end Restful
